import Mathlib

/-!
Shallow embedding of the device-bound content-protection core of the `bot`
repository (services/device_service.py, services/content_service.py,
services/subscription_service.py and the ORM models they use), together with
theorems settling the specification claims.

Machine-level library primitives that the Python code calls but does not
implement (SHA-256 from `hashlib`, the AES-GCM keystream and tag and the
RSA-OAEP trapdoor from the `cryptography` package) are modelled as explicit
function parameters; every repository-level computation (canonical
serialization, base64, chunked streaming, payload layout, the database
operations) is embedded concretely from the source.
-/

namespace Bot

/-! ## Fingerprint engine (DeviceService.generate_device_fingerprint) -/

/-- The seven device characteristics that `generate_device_fingerprint`
projects out of the incoming `device_info` dict (each `device_info.get(k)`
is `none` when the key is absent). -/
structure FingerprintData where
  platform : Option String
  model : Option String
  os_version : Option String
  screen_resolution : Option String
  timezone : Option String
  language : Option String
  hardware_id : Option String
deriving DecidableEq

/-- Rendering of one JSON value: `null` for a missing attribute, a quoted
string otherwise (attribute values in this system are plain identifiers, so
no escaping arises). -/
def jsonStr : Option String → String
  | none => "null"
  | some s => "\"" ++ s ++ "\""

/-- Model of `json.dumps(fingerprint_data, sort_keys=True)`: the canonical
serialization of the seven fixed keys in sorted key order with the default
`", "` / `": "` separators. -/
def fingerprint_string (d : FingerprintData) : String :=
  "\x7b\"hardware_id\": " ++ jsonStr d.hardware_id ++
  ", \"language\": " ++ jsonStr d.language ++
  ", \"model\": " ++ jsonStr d.model ++
  ", \"os_version\": " ++ jsonStr d.os_version ++
  ", \"platform\": " ++ jsonStr d.platform ++
  ", \"screen_resolution\": " ++ jsonStr d.screen_resolution ++
  ", \"timezone\": " ++ jsonStr d.timezone ++ "\x7d"

/-- A `device_info` value is a Python dict: an association list with distinct keys;
`device_info.get(k)` is the first binding of `k`. -/
def DeviceInfo := List (String × String)

/-- Dict lookup `device_info.get(k)` (returns `None` when absent). -/
def infoGet (info : List (String × String)) (k : String) : Option String :=
  info.lookup k

/-- Embedding of `DeviceService.generate_device_fingerprint`, with the SHA-256 hex digest
of `hashlib` abstracted as the parameter `hash`.  Returns the fingerprint
hash together with the canonical attribute record. -/
def generate_device_fingerprint (hash : String → String)
    (info : List (String × String)) : String × FingerprintData :=
  let fingerprint_data : FingerprintData :=
    { platform := infoGet info "platform"
      model := infoGet info "model"
      os_version := infoGet info "os_version"
      screen_resolution := infoGet info "screen_resolution"
      timezone := infoGet info "timezone"
      language := infoGet info "language"
      hardware_id := infoGet info "hardware_id" }
  (hash (fingerprint_string fingerprint_data), fingerprint_data)

/-- Keys of an association list. -/
def keysOf (info : List (String × String)) : List String :=
  info.map Prod.fst

/-! ## Base64 (Python `base64.b64encode` / `b64decode`, used by
`EncryptionService.encrypt_key_for_device` and `decrypt_key_with_device`) -/

/-- The standard base64 alphabet. -/
def b64Alphabet : List Char :=
  "ABCDEFGHIJKLMNOPQRSTUVWXYZabcdefghijklmnopqrstuvwxyz0123456789+/".data

/-- Character for one six-bit value. -/
def b64Char (n : Nat) : Char :=
  b64Alphabet.getD n '?'

/-- Six-bit value of one base64 character, `none` for a character outside
the alphabet. -/
def b64Index (c : Char) : Option Nat :=
  b64Alphabet.indexOf? c

/-- Standard `base64.b64encode` over a byte list: groups of three bytes become four
characters, a final group of one or two bytes is padded with `=`. -/
def encodeB64 : List Nat → List Char
  | [] => []
  | [a] => [b64Char (a / 4), b64Char (a % 4 * 16), '=', '=']
  | [a, b] => [b64Char (a / 4), b64Char (a % 4 * 16 + b / 16), b64Char (b % 16 * 4), '=']
  | a :: b :: c :: rest =>
    b64Char (a / 4) :: b64Char (a % 4 * 16 + b / 16) ::
      b64Char (b % 16 * 4 + c / 64) :: b64Char (c % 64) :: encodeB64 rest

/-- Standard `base64.b64decode`: four characters at a time, honouring `=` padding;
`none` on malformed input. -/
def decodeB64 : List Char → Option (List Nat)
  | [] => some []
  | c0 :: c1 :: c2 :: c3 :: rest =>
    match b64Index c0, b64Index c1 with
    | some i0, some i1 =>
      if c2 = '=' then
        if c3 = '=' ∧ rest = [] then some [i0 * 4 + i1 / 16] else none
      else
        match b64Index c2 with
        | some i2 =>
          if c3 = '=' then
            if rest = [] then some [i0 * 4 + i1 / 16, i1 % 16 * 16 + i2 / 4] else none
          else
            match b64Index c3, decodeB64 rest with
            | some i3, some tl =>
              some ((i0 * 4 + i1 / 16) :: (i1 % 16 * 16 + i2 / 4) ::
                (i2 % 4 * 64 + i3) :: tl)
            | _, _ => none
        | none => none
    | _, _ => none
  | _ => none

/-! ## Bulk encryption (EncryptionService.encrypt_file / decrypt_file)

AES-GCM from the `cryptography` package is modelled at the interface the
code uses: a CTR keystream `ks key iv pos` giving the keystream byte XORed
at position `pos` (so `encryptor.update` / `decryptor.update` are
position-wise XOR, and update calls concatenate), and a tag function
`tagF key iv ct` giving the 16-byte authentication tag that
`encryptor.finalize`/`tag` produces and `decryptor.finalize` verifies.
Files are byte lists. -/

/-- One `update` call of the GCM cipher: XOR the data against the keystream
starting at stream position `pos`. -/
def xorStream (ks : Nat → Nat) : Nat → List Nat → List Nat
  | _, [] => []
  | pos, b :: bs => (b ^^^ ks pos) :: xorStream ks (pos + 1) bs

/-- The read loop of `encrypt_file`: successive `infile.read(8192)` chunks. -/
def readChunks (l : List Nat) : List (List Nat) :=
  if _h : l = [] then []
  else l.take 8192 :: readChunks (l.drop 8192)
termination_by l.length
decreasing_by
  have : 0 < l.length := List.length_pos.mpr _h
  simp [List.length_drop]
  omega

/-- The encryption loop: one `encryptor.update` per chunk, outputs
concatenated in file order. -/
def updateLoop (ks : Nat → Nat) : Nat → List (List Nat) → List Nat
  | _, [] => []
  | pos, chunk :: rest => xorStream ks pos chunk ++ updateLoop ks (pos + chunk.length) rest

/-- Embedding of `EncryptionService.encrypt_file`: writes the 12-byte IV, then the
ciphertext produced chunk by chunk, then the 16-byte authentication tag.
The random `secrets.token_bytes(12)` IV is passed in as `iv`. -/
def encrypt_file (ks : List Nat → List Nat → Nat → Nat)
    (tagF : List Nat → List Nat → List Nat → List Nat)
    (content_key : List Nat) (iv : List Nat) (file : List Nat) : List Nat :=
  let ciphertext := updateLoop (ks content_key iv) 0 (readChunks file)
  iv ++ ciphertext ++ tagF content_key iv ciphertext

/-- Embedding of `EncryptionService.decrypt_file`: reads the first 12 bytes as IV, the
last 16 as tag, decrypts the middle in one `update`, and `finalize` fails
(the `InvalidTag` exception) unless the tag verifies. -/
def decrypt_file (ks : List Nat → List Nat → Nat → Nat)
    (tagF : List Nat → List Nat → List Nat → List Nat)
    (content_key : List Nat) (payload : List Nat) : Except String (List Nat) :=
  let iv := payload.take 12
  let file_size := payload.length
  let encrypted_data := (payload.drop 12).take (file_size - 12 - 16)
  let tag := (payload.drop 12).drop (file_size - 12 - 16)
  let plaintext := xorStream (ks content_key iv) 0 encrypted_data
  if tagF content_key iv encrypted_data = tag then .ok plaintext
  else .error "InvalidTag"

/-- Flip bit `i` (for `i < 128`) of the 16-byte authentication tag sitting
at the end of an encrypted payload. -/
def tamperTag (payload : List Nat) (i : Nat) : List Nat :=
  let p := payload.length - 16 + i / 8
  payload.set p (payload.getD p 0 ^^^ 2 ^ (i % 8))

/-! ## Content-key wrapping (EncryptionService.encrypt_key_for_device /
decrypt_key_with_device)

The RSA-OAEP trapdoor of the `cryptography` package is abstracted as a pair
of parameters: `rsaEnc pub r m` (public-key encryption of message bytes `m`
under the PEM-encoded public key `pub` with OAEP randomness `r`) and
`rsaDec priv c` (private-key decryption, `none` on failure).  The property
that `generate_device_keypair` issues a matching trapdoor pair appears as a
hypothesis of the round-trip theorem.  The repository-level content — the
base64 text armouring around the library call — is embedded concretely. -/

/-- Embedding of `EncryptionService.encrypt_key_for_device`: RSA-OAEP-encrypt the content
key under the device public key, then base64-encode the result. -/
def encrypt_key_for_device (rsaEnc : String → List Nat → List Nat → List Nat)
    (content_key : List Nat) (device_public_key_pem : String)
    (r : List Nat) : List Char :=
  encodeB64 (rsaEnc device_public_key_pem r content_key)

/-- Embedding of `EncryptionService.decrypt_key_with_device`: base64-decode the wrapped
key, then RSA-OAEP-decrypt it with the device private key; `none` when
either step fails. -/
def decrypt_key_with_device (rsaDec : String → List Nat → Option (List Nat))
    (encrypted_key_b64 : List Char) (device_private_key_pem : String) :
    Option (List Nat) :=
  (decodeB64 encrypted_key_b64).bind (rsaDec device_private_key_pem)

/-! ## Data model and services (models/*.py, DeviceService, ContentService,
SubscriptionService)

The SQLAlchemy session is modelled as an explicit record of tables; a query
`filter(...).first()` is `List.find?`, `session.add` appends, and an ORM
attribute update followed by `commit` replaces the row with the same primary
key.  Timestamps (`datetime.utcnow()`) are threaded in as a `now : Nat`
parameter; only their relative order matters to the code. -/

structure UserRec where
  id : Nat
  telegram_id : Nat
deriving DecidableEq

structure DeviceRec where
  id : Nat
  user_id : Nat
  device_id : String
  device_type : String
  platform : Option String
  device_name : String
  fingerprint : FingerprintData
  public_key : String
  is_active : Bool
  last_seen : Nat
deriving DecidableEq

structure ContentRec where
  id : Nat
  title : String
  description : String
  content_type : String
  file_path : String
  encryption_key_id : String
  is_active : Bool
deriving DecidableEq

structure AccessRec where
  user_id : Nat
  content_id : Nat
  device_id : Nat
  access_type : String
deriving DecidableEq

structure SubscriptionRec where
  user_id : Nat
  is_active : Bool
  end_date : Nat
deriving DecidableEq

/-- The database: one field per table, plus the `keys/<id>.key` files that
`ContentService` uses as the key-custody store, plus the primary-key
counter for the devices table. -/
structure DB where
  users : List UserRec
  devices : List DeviceRec
  contents : List ContentRec
  accesses : List AccessRec
  subscriptions : List SubscriptionRec
  keyFiles : List (String × List Nat)
  nextDeviceId : Nat
deriving DecidableEq

/-- Query `session.query(User).filter(User.telegram_id == tid).first()`. -/
def findUser (db : DB) (telegram_id : Nat) : Option UserRec :=
  db.users.find? (fun u => u.telegram_id == telegram_id)

/-- Commit of an attribute update on one device row: replace the row with
the same primary key. -/
def updateDevice (devices : List DeviceRec) (d' : DeviceRec) : List DeviceRec :=
  devices.map fun d => if d.id == d'.id then d' else d

/-- Python string interpolation of a `.get` result (`None` prints as
`"None"`). -/
def pyStr : Option String → String
  | none => "None"
  | some s => s

/-- The two result shapes of `DeviceService.register_device`: reactivation
returns the bare device row; a fresh registration returns the
`{'device': ..., 'private_key': ..., 'device_id': ...}` mapping. -/
inductive RegisterResult where
  | reactivated (device : DeviceRec)
  | fresh (device : DeviceRec) (private_key : String) (device_id : String)
deriving DecidableEq

/-- Embedding of `DeviceService.register_device`.  The RSA keypair that
`generate_device_keypair` would draw is passed in as `keypair =
(private_pem, public_pem)`; it is consumed only on the fresh-registration
path. -/
def register_device (hash : String → String) (keypair : String × String)
    (now telegram_id : Nat) (device_info : List (String × String))
    (db : DB) : Except String RegisterResult × DB :=
  match findUser db telegram_id with
  | none => (.error "User not found", db)
  | some user =>
    let existing_devices := db.devices.filter fun d => d.user_id == user.id && d.is_active
    let device_type := (infoGet device_info "device_type").getD "mobile"
    let mobile_count := (existing_devices.filter fun d => d.device_type == "mobile").length
    let laptop_count := (existing_devices.filter fun d => d.device_type == "laptop").length
    if device_type = "mobile" ∧ 1 ≤ mobile_count then
      (.error "Maximum mobile devices (1) already registered", db)
    else if device_type = "laptop" ∧ 1 ≤ laptop_count then
      (.error "Maximum laptop devices (1) already registered", db)
    else
      let fp := generate_device_fingerprint hash device_info
      match db.devices.find? (fun d => d.user_id == user.id && d.device_id == fp.1) with
      | some existing_device =>
        let updated := { existing_device with is_active := true, last_seen := now }
        (.ok (.reactivated updated), { db with devices := updateDevice db.devices updated })
      | none =>
        let device : DeviceRec :=
          { id := db.nextDeviceId
            user_id := user.id
            device_id := fp.1
            device_type := device_type
            platform := infoGet device_info "platform"
            device_name := (infoGet device_info "device_name").getD
              (pyStr (infoGet device_info "platform") ++ " Device")
            fingerprint := fp.2
            public_key := keypair.2
            is_active := true
            last_seen := now }
        (.ok (.fresh device keypair.1 fp.1),
          { db with devices := db.devices ++ [device],
                    nextDeviceId := db.nextDeviceId + 1 })

/-- The three outcomes of `DeviceService.verify_device`: `False` for a
missing user, the device row on success, `None` otherwise. -/
inductive VerifyResult where
  | userNotFound
  | authorized (device : DeviceRec)
  | notAuthorized
deriving DecidableEq

/-- Embedding of `DeviceService.verify_device`: succeeds only for an existing, owned,
active device, refreshing `last_seen` as a side effect of success. -/
def verify_device (now telegram_id : Nat) (device_id : String) (db : DB) :
    VerifyResult × DB :=
  match findUser db telegram_id with
  | none => (.userNotFound, db)
  | some user =>
    match db.devices.find?
        (fun d => d.user_id == user.id && d.device_id == device_id && d.is_active) with
    | some device =>
      let updated := { device with last_seen := now }
      (.authorized updated, { db with devices := updateDevice db.devices updated })
    | none => (.notAuthorized, db)

/-- Embedding of `DeviceService.revoke_device`: deactivates the matching row (active or
not); `False` when the user or device is missing. -/
def revoke_device (telegram_id : Nat) (device_id : String) (db : DB) :
    Bool × DB :=
  match findUser db telegram_id with
  | none => (false, db)
  | some user =>
    match db.devices.find? (fun d => d.user_id == user.id && d.device_id == device_id) with
    | some device =>
      (true, { db with devices := updateDevice db.devices { device with is_active := false } })
    | none => (false, db)

/-- Embedding of `SubscriptionService.get_active_subscription`. -/
def get_active_subscription (now telegram_id : Nat) (db : DB) :
    Option SubscriptionRec :=
  match findUser db telegram_id with
  | none => none
  | some user =>
    db.subscriptions.find?
      (fun s => s.user_id == user.id && s.is_active && decide (now < s.end_date))

/-- Embedding of `ContentService.list_user_content`: empty without a user or an active
subscription, otherwise all active content. -/
def list_user_content (now telegram_id : Nat) (db : DB) : List ContentRec :=
  match findUser db telegram_id with
  | none => []
  | some _ =>
    match get_active_subscription now telegram_id db with
    | none => []
    | some _ => db.contents.filter (fun c => c.is_active)

/-- Result of a successful `ContentService.get_content_for_device`. -/
structure GrantResult where
  content : ContentRec
  encrypted_key : List Char
  device_id : String
deriving DecidableEq

/-- Embedding of `ContentService.get_content_for_device`: resolves user, authorized
device, active content and the stored content key, wraps the key for the
device, and appends one ContentAccess row on success. -/
def get_content_for_device (rsaEnc : String → List Nat → List Nat → List Nat)
    (r : List Nat) (telegram_id content_id : Nat) (device_id : String)
    (db : DB) : Except String GrantResult × DB :=
  match findUser db telegram_id with
  | none => (.error "User not found", db)
  | some user =>
    match db.devices.find?
        (fun d => d.user_id == user.id && d.device_id == device_id && d.is_active) with
    | none => (.error "Device not authorized", db)
    | some device =>
      match db.contents.find? (fun c => c.id == content_id && c.is_active) with
      | none => (.error "Content not found", db)
      | some content =>
        match db.keyFiles.lookup content.encryption_key_id with
        | none => (.error "Content key not found", db)
        | some content_key =>
          let encrypted_key :=
            encrypt_key_for_device rsaEnc content_key device.public_key r
          let access : AccessRec :=
            { user_id := user.id, content_id := content.id,
              device_id := device.id, access_type := "download" }
          (.ok { content := content, encrypted_key := encrypted_key,
                 device_id := device_id },
            { db with accesses := db.accesses ++ [access] })

/-! ## Distinguished states and rows referenced by the theorems -/

/-- A state with one user (telegram id 10), one active authorized device,
one active content item with its key on disk, and no subscription rows at
all. -/
def entitlementDB : DB :=
  { users := [⟨1, 10⟩]
    devices := [⟨1, 1, "fp1", "mobile", some "android", "Phone",
      ⟨some "android", none, none, none, none, none, none⟩, "PUB", true, 0⟩]
    contents := [⟨5, "T", "D", "pdf", "f.encrypted", "k1", true⟩]
    accesses := []
    subscriptions := []
    keyFiles := [("k1", [9])]
    nextDeviceId := 2 }

/-- The device row built by the fresh-registration path of
`register_device`. -/
def freshDevice (hash : String → String) (kp : String × String)
    (now : Nat) (info : List (String × String)) (db : DB)
    (user : UserRec) : DeviceRec :=
  { id := db.nextDeviceId
    user_id := user.id
    device_id := (generate_device_fingerprint hash info).1
    device_type := (infoGet info "device_type").getD "mobile"
    platform := infoGet info "platform"
    device_name := (infoGet info "device_name").getD
      (pyStr (infoGet info "platform") ++ " Device")
    fingerprint := (generate_device_fingerprint hash info).2
    public_key := kp.2
    is_active := true
    last_seen := now }

/-! ## Concrete states and traces used as counterexamples and witnesses -/

/-- One registered user with telegram id 10 and an otherwise empty store. -/
def baseDB : DB :=
  { users := [⟨1, 10⟩], devices := [], contents := [], accesses := [],
    subscriptions := [], keyFiles := [], nextDeviceId := 1 }

def mobileInfo : List (String × String) :=
  [("device_type", "mobile"), ("platform", "android"),
   ("hardware_id", "hw1"), ("device_name", "Phone")]

/-- The fingerprint identifier of `mobileInfo` under the identity stand-in
for the hash. -/
def mobileFpId : String := (generate_device_fingerprint (fun s => s) mobileInfo).1

def dbAfterMobile : DB :=
  (register_device (fun s => s) ("PRIV1", "PUB1") 0 10 mobileInfo baseDB).2

def dbRevokedMobile : DB := (revoke_device 10 mobileFpId dbAfterMobile).2

/-- The mobile device row as it stands after registration and revocation. -/
def edMobile : DeviceRec :=
  { id := 1, user_id := 1, device_id := mobileFpId, device_type := "mobile",
    platform := some "android", device_name := "Phone",
    fingerprint := (generate_device_fingerprint (fun s => s) mobileInfo).2,
    public_key := "PUB1", is_active := false, last_seen := 0 }

def laptopInfoA : List (String × String) :=
  [("device_type", "laptop"), ("platform", "windows"),
   ("hardware_id", "hwA"), ("device_name", "LapA")]

def laptopInfoB : List (String × String) :=
  [("device_type", "laptop"), ("platform", "windows"),
   ("hardware_id", "hwB"), ("device_name", "LapB")]

/-- The same hardware attributes as `laptopInfoA` but submitted with the
`mobile` device class; the seven fingerprinted fields are identical, so the
fingerprint equals that of `laptopInfoA`. -/
def mobileInfoA : List (String × String) :=
  [("device_type", "mobile"), ("platform", "windows"),
   ("hardware_id", "hwA"), ("device_name", "LapA")]

def laptopFpA : String := (generate_device_fingerprint (fun s => s) laptopInfoA).1

def traceDB1 : DB :=
  (register_device (fun s => s) ("P1", "U1") 0 10 laptopInfoA baseDB).2

def traceDB2 : DB := (revoke_device 10 laptopFpA traceDB1).2

def traceDB3 : DB :=
  (register_device (fun s => s) ("P2", "U2") 1 10 laptopInfoB traceDB2).2

def traceDB4 : DB :=
  (register_device (fun s => s) ("P3", "U3") 2 10 mobileInfoA traceDB3).2

/-! ## Theorems -/

theorem lookup_eq_of_perm (l₁ l₂ : List (String × String))
    (hp : l₁.Perm l₂) (hnd : (keysOf l₁).Nodup) (k : String) :
    l₁.lookup k = l₂.lookup k := by
  induction hp with
  | nil => rfl
  | cons x _ ih =>
    simp only [keysOf, List.map_cons, List.nodup_cons] at hnd
    simp only [List.lookup]
    split
    · rfl
    · exact ih hnd.2
  | swap x y l =>
    simp only [keysOf, List.map_cons, List.nodup_cons, List.mem_cons] at hnd
    by_cases hky : k == y.1 <;> by_cases hkx : k == x.1 <;>
      simp only [List.lookup, hky, hkx]
    · exfalso
      have h1 : k = y.1 := by simpa using hky
      have h2 : k = x.1 := by simpa using hkx
      exact hnd.1 (Or.inl (h1.symm.trans h2))
  | trans h₁₂ _ ih₁ ih₂ =>
    have hnd₂ := (h₁₂.map Prod.fst).nodup_iff.mp hnd
    exact (ih₁ hnd).trans (ih₂ hnd₂)

/-- C9.  The fingerprint function is deterministic: two attribute dicts
holding identical bindings (one a reordering of the other, keys distinct as
in a dict) yield the same identifier and the same canonical attribute
record, whatever hash function is plugged in; being a pure function of its
argument, it has no side effects. -/
theorem fingerprint_deterministic (hash : String → String)
    (A₁ A₂ : List (String × String)) (hperm : A₁.Perm A₂)
    (hnd : (keysOf A₁).Nodup) :
    generate_device_fingerprint hash A₁ = generate_device_fingerprint hash A₂ := by
  have hl : ∀ k, A₁.lookup k = A₂.lookup k :=
    fun k => lookup_eq_of_perm A₁ A₂ hperm hnd k
  simp only [generate_device_fingerprint, infoGet, hl]

/-- Witness for C9 at a concrete pair of reordered attribute dicts. -/
theorem fingerprint_deterministic_witness :
    generate_device_fingerprint (fun s => s)
        [("platform", "android"), ("hardware_id", "abc")] =
      generate_device_fingerprint (fun s => s)
        [("hardware_id", "abc"), ("platform", "android")] :=
  fingerprint_deterministic (fun s => s)
    [("platform", "android"), ("hardware_id", "abc")]
    [("hardware_id", "abc"), ("platform", "android")]
    (List.Perm.swap _ _ _) (by decide)

theorem b64Index_b64Char : ∀ n, n < 64 → b64Index (b64Char n) = some n := by
  decide

theorem b64Char_ne_eq : ∀ n, n < 64 → b64Char n ≠ '=' := by
  decide

theorem decodeB64_encodeB64 :
    ∀ (l : List Nat), (∀ x ∈ l, x < 256) → decodeB64 (encodeB64 l) = some l := by
  intro l
  induction l using encodeB64.induct with
  | case1 => intro _; rfl
  | case2 a =>
    intro hl
    have ha : a < 256 := hl a (by simp)
    have h0 := b64Index_b64Char (a / 4) (by omega)
    have h1 := b64Index_b64Char (a % 4 * 16) (by omega)
    simp [encodeB64, decodeB64, h0, h1]
    omega
  | case3 a b =>
    intro hl
    have ha : a < 256 := hl a (by simp)
    have hb : b < 256 := hl b (by simp)
    have h0 := b64Index_b64Char (a / 4) (by omega)
    have h1 := b64Index_b64Char (a % 4 * 16 + b / 16) (by omega)
    have h2 := b64Index_b64Char (b % 16 * 4) (by omega)
    have hne2 := b64Char_ne_eq (b % 16 * 4) (by omega)
    simp [encodeB64, decodeB64, h0, h1, h2, hne2]
    omega
  | case4 a b c rest ih =>
    intro hl
    have ha : a < 256 := hl a (by simp)
    have hb : b < 256 := hl b (by simp)
    have hc : c < 256 := hl c (by simp)
    have hrest : ∀ x ∈ rest, x < 256 := fun x hx => hl x (by simp [hx])
    have h0 := b64Index_b64Char (a / 4) (by omega)
    have h1 := b64Index_b64Char (a % 4 * 16 + b / 16) (by omega)
    have h2 := b64Index_b64Char (b % 16 * 4 + c / 64) (by omega)
    have h3 := b64Index_b64Char (c % 64) (by omega)
    have hne2 := b64Char_ne_eq (b % 16 * 4 + c / 64) (by omega)
    have hne3 := b64Char_ne_eq (c % 64) (by omega)
    simp [encodeB64, decodeB64, h0, h1, h2, h3, hne2, hne3, ih hrest]
    refine ⟨by omega, by omega, by omega⟩

theorem xorStream_append (ks : Nat → Nat) (pos : Nat) (l₁ l₂ : List Nat) :
    xorStream ks pos (l₁ ++ l₂) =
      xorStream ks pos l₁ ++ xorStream ks (pos + l₁.length) l₂ := by
  induction l₁ generalizing pos with
  | nil => simp [xorStream]
  | cons b bs ih =>
    simp only [List.cons_append, xorStream, List.length_cons]
    rw [show pos + (bs.length + 1) = pos + 1 + bs.length by omega]
    exact congrArg (List.cons (b ^^^ ks pos)) (ih (pos + 1))

theorem updateLoop_readChunks (ks : Nat → Nat) (pos : Nat) (l : List Nat) :
    updateLoop ks pos (readChunks l) = xorStream ks pos l := by
  induction l using readChunks.induct generalizing pos with
  | case1 => simp [readChunks, updateLoop, xorStream]
  | case2 l hnil ih =>
    rw [readChunks]
    simp only [hnil, dif_neg, updateLoop, ih]
    conv_rhs => rw [← List.take_append_drop 8192 l]
    rw [xorStream_append]

theorem xorStream_length (ks : Nat → Nat) (pos : Nat) (l : List Nat) :
    (xorStream ks pos l).length = l.length := by
  induction l generalizing pos with
  | nil => rfl
  | cons b bs ih => simp [xorStream, ih]

theorem xorStream_xorStream (ks : Nat → Nat) (pos : Nat) (l : List Nat) :
    xorStream ks pos (xorStream ks pos l) = l := by
  induction l generalizing pos with
  | nil => rfl
  | cons b bs ih => simp [xorStream, ih, Nat.xor_assoc]

/-- Parsing lemma shared by the round-trip and tamper theorems: on a payload
laid out as IV ++ ciphertext ++ tag, `decrypt_file` verifies exactly the
stored tag and decrypts exactly the ciphertext. -/
theorem decrypt_file_parse (ks : List Nat → List Nat → Nat → Nat)
    (tagF : List Nat → List Nat → List Nat → List Nat)
    (key iv ct tg : List Nat) (hiv : iv.length = 12) (htg : tg.length = 16) :
    decrypt_file ks tagF key (iv ++ ct ++ tg) =
      if tagF key iv ct = tg then .ok (xorStream (ks key iv) 0 ct)
      else .error "InvalidTag" := by
  have hlen : (iv ++ ct ++ tg).length = 12 + ct.length + 16 := by
    simp [hiv, htg]; omega
  have htake : (iv ++ ct ++ tg).take 12 = iv := by
    rw [List.append_assoc, List.take_append_of_le_length (by omega), List.take_of_length_le (by omega)]
  have hdrop : (iv ++ ct ++ tg).drop 12 = ct ++ tg := by
    rw [List.append_assoc, List.drop_append_of_le_length (by omega), List.drop_of_length_le (by omega), List.nil_append]
  have hsz : (iv ++ ct ++ tg).length - 12 - 16 = ct.length := by omega
  simp only [decrypt_file, htake, hdrop, hsz,
    List.take_left' rfl, List.drop_left' rfl]

/-- C8.  Decrypting the output of `encrypt_file` with the same content key
recovers the original file exactly: the per-encryption 12-byte nonce is
prepended, the tag appended, and the chunked CTR encryption is inverted
wholesale. -/
theorem decrypt_file_encrypt_file (ks : List Nat → List Nat → Nat → Nat)
    (tagF : List Nat → List Nat → List Nat → List Nat)
    (key iv file : List Nat) (hiv : iv.length = 12)
    (htag : ∀ k i c, (tagF k i c).length = 16) :
    decrypt_file ks tagF key (encrypt_file ks tagF key iv file) = .ok file := by
  rw [encrypt_file]
  simp only [updateLoop_readChunks]
  rw [decrypt_file_parse ks tagF key iv _ _ hiv (htag _ _ _)]
  rw [if_pos rfl, xorStream_xorStream]

/-- Witness for C8 at a concrete keystream, tag function, key, IV and file. -/
theorem decrypt_file_encrypt_file_witness :
    decrypt_file (fun _ _ n => (n + 7) % 256)
        (fun k i c => List.replicate 16 (k.length + i.length + c.length)) [1, 2]
        (encrypt_file (fun _ _ n => (n + 7) % 256)
          (fun k i c => List.replicate 16 (k.length + i.length + c.length))
          [1, 2] (List.replicate 12 0) [10, 20, 30, 40, 250]) =
      .ok [10, 20, 30, 40, 250] :=
  decrypt_file_encrypt_file (fun _ _ n => (n + 7) % 256)
    (fun k i c => List.replicate 16 (k.length + i.length + c.length))
    [1, 2] (List.replicate 12 0) [10, 20, 30, 40, 250]
    (by simp) (fun _ _ _ => by simp)

theorem set_append_add {α : Type} (a b : List α) (n : Nat) (v : α) :
    (a ++ b).set (a.length + n) v = a ++ b.set n v := by
  induction a with
  | nil => simp
  | cons x xs ih =>
    simp only [List.cons_append, List.length_cons]
    rw [show xs.length + 1 + n = (xs.length + n) + 1 by omega]
    simp [List.set, ih]

theorem getD_set_self {α : Type} (l : List α) (n : Nat) (v d : α)
    (h : n < l.length) : (l.set n v).getD n d = v := by
  induction l generalizing n with
  | nil => simp at h
  | cons x xs ih =>
    cases n with
    | zero => rfl
    | succ m => simpa using ih m (by simpa using h)

theorem xor_pow_ne_self (b k : Nat) : b ^^^ 2 ^ k ≠ b := by
  intro h
  have h2 : b ^^^ (b ^^^ 2 ^ k) = b ^^^ b := congrArg (b ^^^ ·) h
  rw [← Nat.xor_assoc, Nat.xor_self, Nat.zero_xor] at h2
  exact absurd h2 (Nat.two_pow_pos k).ne'

/-- C6.  Flipping any single bit of the authentication tag of a payload
produced by `encrypt_file` makes `decrypt_file` under the same key fail with
the tag-verification error; no plaintext is returned. -/
theorem decrypt_file_tag_tamper (ks : List Nat → List Nat → Nat → Nat)
    (tagF : List Nat → List Nat → List Nat → List Nat)
    (key iv file : List Nat) (i : Nat) (hiv : iv.length = 12)
    (htag : ∀ k v c, (tagF k v c).length = 16) (hi : i < 128) :
    decrypt_file ks tagF key (tamperTag (encrypt_file ks tagF key iv file) i) =
      .error "InvalidTag" := by
  have henc : encrypt_file ks tagF key iv file =
      (iv ++ updateLoop (ks key iv) 0 (readChunks file)) ++
        tagF key iv (updateLoop (ks key iv) 0 (readChunks file)) := by
    rw [encrypt_file, List.append_assoc]
  generalize hC : updateLoop (ks key iv) 0 (readChunks file) = ct at henc
  generalize hT : tagF key iv ct = tag at henc
  have hlt : tag.length = 16 := hT ▸ htag key iv ct
  have hp : ((iv ++ ct) ++ tag).length - 16 + i / 8 = (iv ++ ct).length + i / 8 := by
    simp only [List.length_append, hlt]
    omega
  have htam : tamperTag (encrypt_file ks tagF key iv file) i =
      iv ++ ct ++ tag.set (i / 8) (tag.getD (i / 8) 0 ^^^ 2 ^ (i % 8)) := by
    rw [henc]
    simp only [tamperTag, hp]
    rw [set_append_add, List.getD_append_right _ _ _ _ (Nat.le_add_right _ _),
      Nat.add_sub_cancel_left, List.append_assoc]
  rw [htam,
    decrypt_file_parse ks tagF key iv ct _ hiv (by simp [hlt]), hT, if_neg]
  intro hEq
  have h8 : i / 8 < tag.length := by omega
  have hgd := congrArg (fun l => l.getD (i / 8) 0) hEq
  simp only [getD_set_self _ _ _ _ h8] at hgd
  exact xor_pow_ne_self (tag.getD (i / 8) 0) (i % 8) hgd.symm

/-- Witness for C6: a concrete encrypted payload whose tag has bit 0
flipped is rejected. -/
theorem decrypt_file_tag_tamper_witness :
    decrypt_file (fun _ _ n => (n + 7) % 256)
        (fun k v c => List.replicate 16 (k.length + v.length + c.length)) [1, 2]
        (tamperTag
          (encrypt_file (fun _ _ n => (n + 7) % 256)
            (fun k v c => List.replicate 16 (k.length + v.length + c.length))
            [1, 2] (List.replicate 12 0) [10, 20, 30]) 0) =
      .error "InvalidTag" :=
  decrypt_file_tag_tamper (fun _ _ n => (n + 7) % 256)
    (fun k v c => List.replicate 16 (k.length + v.length + c.length))
    [1, 2] (List.replicate 12 0) [10, 20, 30] 0
    (by simp) (fun _ _ _ => by simp) (by omega)

/-- C7.  Wrap/unwrap round-trip: for every content key `K` and every device
keypair `(priv, pub)` issued by `generate_device_keypair` — expressed by the
hypotheses that the keypair's OAEP decryption inverts its encryption on `K`
and that ciphertexts are bytes — unwrapping the wrapped key with the device
private key recovers `K` exactly. -/
theorem decrypt_key_encrypt_key_roundtrip
    (rsaEnc : String → List Nat → List Nat → List Nat)
    (rsaDec : String → List Nat → Option (List Nat))
    (priv pub : String) (K r : List Nat)
    (hbytes : ∀ x ∈ rsaEnc pub r K, x < 256)
    (hpair : rsaDec priv (rsaEnc pub r K) = some K) :
    decrypt_key_with_device rsaDec (encrypt_key_for_device rsaEnc K pub r) priv =
      some K := by
  rw [decrypt_key_with_device, encrypt_key_for_device,
    decodeB64_encodeB64 _ hbytes, Option.some_bind]
  exact hpair

/-- Witness for C7 at a concrete trapdoor pair and content key. -/
theorem decrypt_key_encrypt_key_roundtrip_witness :
    decrypt_key_with_device (fun _ c => some c)
        (encrypt_key_for_device (fun _ _ m => m) [0, 31, 255] "PUB" []) "PRIV" =
      some [0, 31, 255] :=
  decrypt_key_encrypt_key_roundtrip (fun _ _ m => m) (fun _ c => some c)
    "PRIV" "PUB" [0, 31, 255] [] (by decide) rfl

/-- C5.  Every call to `get_content_for_device` that succeeds appends
exactly one ContentAccess row, and every failing call appends none: the
access log grows by exactly the number of successes. -/
theorem grant_appends_exactly_one_access_on_success
    (rsaEnc : String → List Nat → List Nat → List Nat) (r : List Nat)
    (telegram_id content_id : Nat) (device_id : String) (db : DB) :
    ∃ new,
      ((get_content_for_device rsaEnc r telegram_id content_id device_id db).2).accesses =
          db.accesses ++ new ∧
        new.length =
          (match (get_content_for_device rsaEnc r telegram_id content_id device_id db).1 with
            | .ok _ => 1
            | .error _ => 0) := by
  cases hU : findUser db telegram_id with
  | none => exact ⟨[], by simp [get_content_for_device, hU]⟩
  | some user =>
    cases hD : db.devices.find?
        (fun d => d.user_id == user.id && d.device_id == device_id && d.is_active) with
    | none => exact ⟨[], by simp [get_content_for_device, hU, hD]⟩
    | some device =>
      cases hC : db.contents.find? (fun c => c.id == content_id && c.is_active) with
      | none => exact ⟨[], by simp [get_content_for_device, hU, hD, hC]⟩
      | some content =>
        cases hK : db.keyFiles.lookup content.encryption_key_id with
        | none => exact ⟨[], by simp [get_content_for_device, hU, hD, hC, hK]⟩
        | some content_key =>
          exact ⟨[⟨user.id, content.id, device.id, "download"⟩],
            by simp [get_content_for_device, hU, hD, hC, hK]⟩

/-- Counterexample to C2: a user with no active entitlement (no
subscription row exists) is nevertheless granted the wrapped key by
`get_content_for_device`; no `EntitlementRequired` failure occurs. -/
theorem grant_without_entitlement_cex :
    get_active_subscription 0 10 entitlementDB = none ∧
      ∃ g, (get_content_for_device (fun _ _ m => m) [] 10 5 "fp1" entitlementDB).1 =
        .ok g := by
  exact ⟨rfl, ⟨⟨⟨5, "T", "D", "pdf", "f.encrypted", "k1", true⟩,
    encodeB64 [9], "fp1"⟩, rfl⟩⟩

/-- C2 (amended).  `get_content_for_device` performs no entitlement check:
its only failures are missing user, unauthorized device, missing content
and missing key material — no entitlement-related rejection exists on the
grant path.  The active-subscription check exists only in
`list_user_content`, which returns the empty list when the user has no
active subscription. -/
theorem entitlement_checked_only_in_listing :
    (∀ (rsaEnc : String → List Nat → List Nat → List Nat) (r : List Nat)
        (telegram_id content_id : Nat) (device_id : String) (db : DB)
        (e : String),
        (get_content_for_device rsaEnc r telegram_id content_id device_id db).1 =
            .error e →
          e = "User not found" ∨ e = "Device not authorized" ∨
            e = "Content not found" ∨ e = "Content key not found") ∧
      (∀ (now telegram_id : Nat) (db : DB),
        get_active_subscription now telegram_id db = none →
          list_user_content now telegram_id db = []) := by
  constructor
  · intro rsaEnc r telegram_id content_id device_id db e h
    cases hU : findUser db telegram_id with
    | none =>
      simp [get_content_for_device, hU] at h
      simp [h]
    | some user =>
      cases hD : db.devices.find?
          (fun d => d.user_id == user.id && d.device_id == device_id && d.is_active) with
      | none =>
        simp [get_content_for_device, hU, hD] at h
        simp [h]
      | some device =>
        cases hC : db.contents.find? (fun c => c.id == content_id && c.is_active) with
        | none =>
          simp [get_content_for_device, hU, hD, hC] at h
          simp [h]
        | some content =>
          cases hK : db.keyFiles.lookup content.encryption_key_id with
          | none =>
            simp [get_content_for_device, hU, hD, hC, hK] at h
            simp [h]
          | some content_key =>
            simp [get_content_for_device, hU, hD, hC, hK] at h
  · intro now telegram_id db h
    cases hU : findUser db telegram_id with
    | none => simp [list_user_content, hU]
    | some user => simp [list_user_content, hU, h]

/-- Witness for C2's amended statement at a concrete subscription-free
state. -/
theorem entitlement_checked_only_in_listing_witness :
    list_user_content 0 10 entitlementDB = [] :=
  entitlement_checked_only_in_listing.2 0 10 entitlementDB rfl

theorem register_device_reactivation_eq (hash : String → String)
    (kp : String × String) (now telegram_id : Nat)
    (info : List (String × String)) (db : DB) (user : UserRec) (ed : DeviceRec)
    (hU : findUser db telegram_id = some user)
    (hQm : ¬((infoGet info "device_type").getD "mobile" = "mobile" ∧
      1 ≤ ((db.devices.filter fun d => d.user_id == user.id && d.is_active).filter
        fun d => d.device_type == "mobile").length))
    (hQl : ¬((infoGet info "device_type").getD "mobile" = "laptop" ∧
      1 ≤ ((db.devices.filter fun d => d.user_id == user.id && d.is_active).filter
        fun d => d.device_type == "laptop").length))
    (hF : db.devices.find? (fun d => d.user_id == user.id &&
        d.device_id == (generate_device_fingerprint hash info).1) = some ed) :
    register_device hash kp now telegram_id info db =
      (.ok (.reactivated { ed with is_active := true, last_seen := now }),
        { db with devices :=
            updateDevice db.devices { ed with is_active := true, last_seen := now } }) := by
  simp only [register_device, hU]
  rw [if_neg hQm, if_neg hQl, hF]

theorem register_device_fresh_eq (hash : String → String)
    (kp : String × String) (now telegram_id : Nat)
    (info : List (String × String)) (db : DB) (user : UserRec)
    (hU : findUser db telegram_id = some user)
    (hQm : ¬((infoGet info "device_type").getD "mobile" = "mobile" ∧
      1 ≤ ((db.devices.filter fun d => d.user_id == user.id && d.is_active).filter
        fun d => d.device_type == "mobile").length))
    (hQl : ¬((infoGet info "device_type").getD "mobile" = "laptop" ∧
      1 ≤ ((db.devices.filter fun d => d.user_id == user.id && d.is_active).filter
        fun d => d.device_type == "laptop").length))
    (hF : db.devices.find? (fun d => d.user_id == user.id &&
        d.device_id == (generate_device_fingerprint hash info).1) = none) :
    register_device hash kp now telegram_id info db =
      (.ok (.fresh (freshDevice hash kp now info db user) kp.1
          (generate_device_fingerprint hash info).1),
        { db with devices := db.devices ++ [freshDevice hash kp now info db user],
                  nextDeviceId := db.nextDeviceId + 1 }) := by
  simp only [register_device, hU]
  rw [if_neg hQm, if_neg hQl, hF]
  exact rfl

/-- C4 (amended).  When the quota check on the requested class passes and
the fingerprint of the supplied attributes matches an existing (possibly
inactive) device row of the user, `register_device` reactivates that very
row and succeeds without generating key material: the result carries no
private key, no row is added, and every stored public key is unchanged. -/
theorem register_reactivates_without_new_keys (hash : String → String)
    (kp : String × String) (now telegram_id : Nat)
    (info : List (String × String)) (db : DB) (user : UserRec) (ed : DeviceRec)
    (hU : findUser db telegram_id = some user)
    (hQm : ¬((infoGet info "device_type").getD "mobile" = "mobile" ∧
      1 ≤ ((db.devices.filter fun d => d.user_id == user.id && d.is_active).filter
        fun d => d.device_type == "mobile").length))
    (hQl : ¬((infoGet info "device_type").getD "mobile" = "laptop" ∧
      1 ≤ ((db.devices.filter fun d => d.user_id == user.id && d.is_active).filter
        fun d => d.device_type == "laptop").length))
    (hF : db.devices.find? (fun d => d.user_id == user.id &&
        d.device_id == (generate_device_fingerprint hash info).1) = some ed)
    (hIds : (db.devices.map fun d => d.id).Nodup) :
    (register_device hash kp now telegram_id info db).1 =
        .ok (.reactivated { ed with is_active := true, last_seen := now }) ∧
      ((register_device hash kp now telegram_id info db).2).devices.map
          (fun d => d.public_key) = db.devices.map (fun d => d.public_key) ∧
      ((register_device hash kp now telegram_id info db).2).devices.length =
        db.devices.length := by
  rw [register_device_reactivation_eq hash kp now telegram_id info db user ed
    hU hQm hQl hF]
  refine ⟨rfl, ?_, by simp [updateDevice]⟩
  unfold updateDevice
  rw [List.map_map]
  apply List.map_congr_left
  intro d hd
  by_cases hid : d.id = ed.id
  · have hed : ed ∈ db.devices := List.mem_of_find?_eq_some hF
    have hde : d = ed := List.inj_on_of_nodup_map hIds hd hed hid
    simp [Function.comp, hid, hde]
  · simp [Function.comp, hid]

/-- C10.  Under the preconditions that let `register_device` complete (user
exists, class quota passes), the result shape splits: a fingerprint match
yields the bare reactivated device row (the `RegisterResult.reactivated`
shape, carrying no private-key and no device-id entry), while a fresh
registration yields the mapping shape with `device`, `private_key` and
`device_id` entries. -/
theorem register_result_shape (hash : String → String)
    (kp : String × String) (now telegram_id : Nat)
    (info : List (String × String)) (db : DB) (user : UserRec)
    (hU : findUser db telegram_id = some user)
    (hQm : ¬((infoGet info "device_type").getD "mobile" = "mobile" ∧
      1 ≤ ((db.devices.filter fun d => d.user_id == user.id && d.is_active).filter
        fun d => d.device_type == "mobile").length))
    (hQl : ¬((infoGet info "device_type").getD "mobile" = "laptop" ∧
      1 ≤ ((db.devices.filter fun d => d.user_id == user.id && d.is_active).filter
        fun d => d.device_type == "laptop").length)) :
    (∀ ed, db.devices.find? (fun d => d.user_id == user.id &&
          d.device_id == (generate_device_fingerprint hash info).1) = some ed →
        (register_device hash kp now telegram_id info db).1 =
          .ok (.reactivated { ed with is_active := true, last_seen := now })) ∧
      (db.devices.find? (fun d => d.user_id == user.id &&
          d.device_id == (generate_device_fingerprint hash info).1) = none →
        (register_device hash kp now telegram_id info db).1 =
          .ok (.fresh (freshDevice hash kp now info db user) kp.1
            (generate_device_fingerprint hash info).1)) := by
  constructor
  · intro ed hF
    rw [register_device_reactivation_eq hash kp now telegram_id info db user ed
      hU hQm hQl hF]
  · intro hF
    rw [register_device_fresh_eq hash kp now telegram_id info db user
      hU hQm hQl hF]

/-- C1.  In a database whose device rows carry pairwise-distinct
(user, device-id) pairs — which is how registration keys device rows —
after `revoke_device` succeeds, the immediately following and every
subsequent `verify_device` for that (user, device) answers not-authorized
and every `get_content_for_device` for that device fails with the
device-not-authorized error; both leave the state untouched, so no stale
positive result can ever be produced again. -/
theorem revoke_blocks_verify_and_grant
    (now telegram_id : Nat) (device_id : String) (db db' : DB)
    (rsaEnc : String → List Nat → List Nat → List Nat) (r : List Nat)
    (content_id : Nat)
    (hPair : db.devices.Pairwise fun a b =>
      a.user_id = b.user_id → a.device_id ≠ b.device_id)
    (hRev : revoke_device telegram_id device_id db = (true, db')) :
    verify_device now telegram_id device_id db' = (.notAuthorized, db') ∧
      get_content_for_device rsaEnc r telegram_id content_id device_id db' =
        (.error "Device not authorized", db') := by
  cases hU : findUser db telegram_id with
  | none => simp [revoke_device, hU] at hRev
  | some user =>
    cases hF : db.devices.find?
        (fun d => d.user_id == user.id && d.device_id == device_id) with
    | none => simp [revoke_device, hU, hF] at hRev
    | some d =>
      simp only [revoke_device, hU, hF, Prod.mk.injEq, true_and] at hRev
      have hd_mem : d ∈ db.devices := List.mem_of_find?_eq_some hF
      have hd_pred := List.find?_some hF
      simp only [Bool.and_eq_true, beq_iff_eq] at hd_pred
      have hU' : findUser db' telegram_id = some user := by
        rw [← hRev]; exact hU
      have hNone : db'.devices.find?
          (fun x => x.user_id == user.id && x.device_id == device_id &&
            x.is_active) = none := by
        rw [← hRev]
        apply List.find?_eq_none.mpr
        intro x hx
        simp only [updateDevice, List.mem_map] at hx
        obtain ⟨a, ha, hax⟩ := hx
        by_cases hid : (a.id == ({ d with is_active := false } : DeviceRec).id) = true
        · rw [if_pos hid] at hax
          subst hax
          simp
        · rw [if_neg hid] at hax
          subst hax
          intro hpx
          simp only [Bool.and_eq_true, beq_iff_eq] at hpx
          have hne : a ≠ d := by
            intro had
            exact hid (by simp [had])
          have hsymm : Symmetric (fun (p q : DeviceRec) =>
              p.user_id = q.user_id → p.device_id ≠ q.device_id) := by
            intro p q hpq hu he
            exact hpq hu.symm he.symm
          have := hPair.forall hsymm ha hd_mem hne
            (hpx.1.1.trans hd_pred.1.symm)
          exact this (hpx.1.2.trans hd_pred.2.symm)
      constructor
      · simp [verify_device, hU', hNone]
      · simp [get_content_for_device, hU', hNone]

/-- Counterexample to C4 as stated: re-registering the same attributes
while the matching device is still active hits the class-quota check
(which runs before the fingerprint lookup) and fails instead of
reactivating and returning success. -/
theorem register_same_fingerprint_cex :
    (∃ ed, dbAfterMobile.devices.find?
        (fun d => d.user_id == 1 && d.device_id == mobileFpId) = some ed) ∧
      (register_device (fun s => s) ("PRIV2", "PUB2") 1 10 mobileInfo
          dbAfterMobile).1 =
        .error "Maximum mobile devices (1) already registered" := by
  exact ⟨⟨_, rfl⟩, rfl⟩

/-- Witness for C4's amended statement: after revocation the same
attributes reactivate the stored row, add no row and change no public
key. -/
theorem register_reactivates_without_new_keys_witness :
    (register_device (fun s => s) ("PRIV2", "PUB2") 2 10 mobileInfo
          dbRevokedMobile).1 =
        .ok (.reactivated { edMobile with is_active := true, last_seen := 2 }) ∧
      ((register_device (fun s => s) ("PRIV2", "PUB2") 2 10 mobileInfo
          dbRevokedMobile).2).devices.map (fun d => d.public_key) =
        dbRevokedMobile.devices.map (fun d => d.public_key) ∧
      ((register_device (fun s => s) ("PRIV2", "PUB2") 2 10 mobileInfo
          dbRevokedMobile).2).devices.length = dbRevokedMobile.devices.length :=
  register_reactivates_without_new_keys (fun s => s) ("PRIV2", "PUB2") 2 10
    mobileInfo dbRevokedMobile ⟨1, 10⟩ edMobile (by decide) (by decide)
    (by decide) (by decide) (by decide)

/-- Witness for C10 on the fresh-registration side. -/
theorem register_result_shape_witness :
    (register_device (fun s => s) ("PRIV1", "PUB1") 0 10 mobileInfo baseDB).1 =
      .ok (.fresh (freshDevice (fun s => s) ("PRIV1", "PUB1") 0 mobileInfo
          baseDB ⟨1, 10⟩) "PRIV1"
        (generate_device_fingerprint (fun s => s) mobileInfo).1) :=
  (register_result_shape (fun s => s) ("PRIV1", "PUB1") 0 10 mobileInfo baseDB
    ⟨1, 10⟩ (by decide) (by decide) (by decide)).2 (by decide)

/-- Witness for C1 at the concrete revoked state. -/
theorem revoke_blocks_verify_and_grant_witness :
    verify_device 1 10 mobileFpId dbRevokedMobile =
        (.notAuthorized, dbRevokedMobile) ∧
      get_content_for_device (fun _ _ m => m) [] 10 5 mobileFpId dbRevokedMobile =
        (.error "Device not authorized", dbRevokedMobile) :=
  revoke_blocks_verify_and_grant 1 10 mobileFpId dbAfterMobile dbRevokedMobile
    (fun _ _ m => m) [] 5 (by decide) (by decide)

/-- C3.  The at-most-one-active-device-per-class invariant is violated in a
state reachable by register/revoke alone: register a laptop, revoke it,
register a second laptop, then re-register the first device's attributes
under the `mobile` class — the quota check inspects the requested class
(`mobile`, count 0) while the fingerprint match reactivates the stored row,
whose class is `laptop`.  The user ends with two active laptop rows. -/
theorem quota_invariant_violated :
    (∃ x, (register_device (fun s => s) ("P1", "U1") 0 10 laptopInfoA baseDB).1 =
        .ok x) ∧
      (revoke_device 10 laptopFpA traceDB1).1 = true ∧
      (∃ x, (register_device (fun s => s) ("P2", "U2") 1 10 laptopInfoB
          traceDB2).1 = .ok x) ∧
      (∃ x, (register_device (fun s => s) ("P3", "U3") 2 10 mobileInfoA
          traceDB3).1 = .ok x) ∧
      (traceDB4.devices.filter fun d => d.user_id == 1 && d.is_active &&
          d.device_type == "laptop").length = 2 := by
  exact ⟨⟨_, rfl⟩, rfl, ⟨_, rfl⟩, ⟨_, rfl⟩, rfl⟩

end Bot
